import Mathlib

/-!
Verification of the caljson event-window extraction core.

The Go source (src/main.go and the variant src/unnamed/part_000) is embedded
shallowly:

* Go `time.Time` becomes `Time`: an absolute instant (seconds since the Unix
  epoch, UTC) together with a location tag.  All values parsed by this program
  are whole seconds, so second precision is exact.
* Go `*time.Location` becomes `Location`: a zone name with a fixed UTC offset
  in seconds.  `time.LoadLocation` becomes a lookup in an abstract zone
  database `ZoneDB`, and `time.Local` is an explicit `Location` parameter.
* Go's fixed-layout `time.Parse` / `time.ParseInLocation` calls are embedded
  for exactly the three layouts the program uses.
* A missing property (`GetProperty` returning nil) becomes `Option`; the Go
  functions' `(*Event, error)` results, plus the possible nil-pointer
  dereference panic in the event construction, become `ParseResult`.
-/

namespace Caljson

/-- A time-zone location: its name and fixed UTC offset in seconds east. -/
structure Location where
  name : String
  offset : Int
deriving DecidableEq

/-- `time.UTC`. -/
def utc : Location := ⟨"UTC", 0⟩

/-- Go `time.Time`: an absolute instant (seconds since the Unix epoch) plus
the location tag used for local-time rendering. -/
structure Time where
  instant : Int
  loc : Location
deriving DecidableEq

/-- Go `t.After(u)`: strict comparison of instants. -/
def Time.After (t u : Time) : Bool := decide (u.instant < t.instant)

/-- Go `t.Before(u)`: strict comparison of instants. -/
def Time.Before (t u : Time) : Bool := decide (t.instant < u.instant)

/-- Go `t.Add(d)` for a duration of `d` seconds: shifts the instant, keeps
the location. -/
def Time.Add (t : Time) (d : Int) : Time := ⟨t.instant + d, t.loc⟩

/-- Go `t.In(loc)`: reattaches the location tag, leaving the instant as is. -/
def Time.In (t : Time) (l : Location) : Time := ⟨t.instant, l⟩

/-- Gregorian leap-year rule, as used by Go's `time` package. -/
def isLeapYear (y : Int) : Bool := y % 4 == 0 && (y % 100 != 0 || y % 400 == 0)

/-- Number of days in month `m` of year `y`. -/
def daysInMonth (y : Int) (m : Nat) : Nat :=
  if m = 2 then (if isLeapYear y then 29 else 28)
  else if m = 4 ∨ m = 6 ∨ m = 9 ∨ m = 11 then 30
  else 31

/-- Days from the Unix epoch (1970-01-01) to the civil date `y-m-d`
(proleptic Gregorian).  Standard civil-from-days inverse; `/` on `Int` is
Euclidean division, which is floor division for the positive divisors used
here. -/
def daysFromCivil (y : Int) (m d : Nat) : Int :=
  let y' : Int := if m ≤ 2 then y - 1 else y
  let era : Int := y' / 400
  let yoe : Int := y' - era * 400
  let mp : Int := (Int.ofNat m + 9) % 12
  let doy : Int := (153 * mp + 2) / 5 + Int.ofNat d - 1
  let doe : Int := yoe * 365 + yoe / 4 - yoe / 100 + doy
  era * 146097 + doe - 719468

/-- Value of an ASCII digit character. -/
def digit (c : Char) : Option Nat :=
  if c.isDigit then some (c.toNat - 48) else none

/-- Two fixed-width digits. -/
def digits2 (a b : Char) : Option Nat := do
  pure ((← digit a) * 10 + (← digit b))

/-- Four fixed-width digits. -/
def digits4 (a b c d : Char) : Option Nat := do
  pure (((← digit a) * 10 + (← digit b)) * 100 + ((← digit c) * 10 + (← digit d)))

/-- Error outcomes of the extraction core: the explicit missing-DTSTART
error, `time.Parse` format/range errors, and `time.LoadLocation` failures. -/
inductive PErr where
  | missingDtStart
  | badTimestamp
  | badZone
deriving DecidableEq

/-- Seconds-within-era for a `YYYYMMDDTHHMMSS` character sequence, validated
the way Go's `time.Parse` validates field ranges (month 1–12, day within the
month, hour < 24, minute < 60, second < 60).  Returns the wall-clock value
as seconds since the epoch, before any zone offset is applied. -/
def parseDateTimeChars : List Char → Except PErr Int
  | [y1, y2, y3, y4, m1, m2, d1, d2, t, h1, h2, n1, n2, s1, s2] =>
    if t = 'T' then
      match digits4 y1 y2 y3 y4, digits2 m1 m2, digits2 d1 d2,
            digits2 h1 h2, digits2 n1 n2, digits2 s1 s2 with
      | some y, some m, some d, some h, some n, some s =>
        if 1 ≤ m ∧ m ≤ 12 ∧ 1 ≤ d ∧ d ≤ daysInMonth (Int.ofNat y) m
            ∧ h ≤ 23 ∧ n ≤ 59 ∧ s ≤ 59 then
          .ok (daysFromCivil (Int.ofNat y) m d * 86400
                + Int.ofNat (h * 3600 + n * 60 + s))
        else .error .badTimestamp
      | _, _, _, _, _, _ => .error .badTimestamp
    else .error .badTimestamp
  | _ => .error .badTimestamp

/-- Go `time.Parse("20060102", s)`: a bare `YYYYMMDD` date, yielding midnight
UTC of that day. -/
def parseDate8 (s : String) : Except PErr Time :=
  match s.data with
  | [y1, y2, y3, y4, m1, m2, d1, d2] =>
    match digits4 y1 y2 y3 y4, digits2 m1 m2, digits2 d1 d2 with
    | some y, some m, some d =>
      if 1 ≤ m ∧ m ≤ 12 ∧ 1 ≤ d ∧ d ≤ daysInMonth (Int.ofNat y) m then
        .ok ⟨daysFromCivil (Int.ofNat y) m d * 86400, utc⟩
      else .error .badTimestamp
    | _, _, _ => .error .badTimestamp
  | _ => .error .badTimestamp

/-- Go `time.Parse("20060102T150405Z", s)`: a `YYYYMMDDTHHMMSS` value followed
by a literal `Z`, interpreted as UTC. -/
def parseDateTimeZ (s : String) : Except PErr Time :=
  match s.data with
  | [y1, y2, y3, y4, m1, m2, d1, d2, t, h1, h2, n1, n2, s1, s2, z] =>
    if z = 'Z' then
      (parseDateTimeChars [y1, y2, y3, y4, m1, m2, d1, d2, t, h1, h2, n1, n2, s1, s2]).map
        (fun w => ⟨w, utc⟩)
    else .error .badTimestamp
  | _ => .error .badTimestamp

/-- Go `time.Parse(layout, value)` for the layouts this program passes. -/
def goTimeParse (layout value : String) : Except PErr Time :=
  if layout = "20060102" then parseDate8 value
  else if layout = "20060102T150405Z" then parseDateTimeZ value
  else .error .badTimestamp

/-- Go `time.ParseInLocation(layout, value, l)` for the one layout this
program passes: the naive date-time is read as wall-clock time in `l`. -/
def goParseInLocation (layout value : String) (l : Location) : Except PErr Time :=
  if layout = "20060102T150405" then
    (parseDateTimeChars value.data).map (fun w => ⟨w - l.offset, l⟩)
  else .error .badTimestamp

/-- Go `strings.HasSuffix(s, "Z")`. -/
def hasSuffixZ (s : String) : Bool := s.data.getLast? == some 'Z'

/-- The ambient zone database behind `time.LoadLocation`: resolvable names
map to locations, everything else to `none`. -/
def ZoneDB : Type := String → Option Location

/-- Go `ics.IANAProperty`: a raw value plus the `ICalParameters` map from
parameter name to list of values (`none` models an absent map key). -/
structure IANAProperty where
  value : String
  params : String → Option (List String)

/-- The six properties `parseEvent` reads off a `*ics.VEvent` via
`GetProperty`; `none` models `GetProperty` returning nil. -/
structure VEvent where
  dtstart : Option IANAProperty
  dtend : Option IANAProperty
  summary : Option IANAProperty
  description : Option IANAProperty
  location : Option IANAProperty
  uid : Option IANAProperty

/-- src/main.go `parseICalTime` (lines 214–235): `Z`-suffixed values parse as
UTC; otherwise a present, non-empty `TZID` parameter must resolve via
`time.LoadLocation` (an unresolvable name is a returned error), and the naive
value is parsed as wall clock in the resolved zone, or in `time.Local` when
the parameter is absent or empty.  The initial `format` binding mirrors the
source's dead first assignment. -/
def parseICalTime (zdb : ZoneDB) (localLoc : Location) (value : String)
    (p : IANAProperty) : Except PErr Time :=
  let format := "20060102T150405Z0700"
  if hasSuffixZ value then
    let format := "20060102T150405Z"
    goTimeParse format value
  else
    match p.params "TZID" with
    | some (tz :: _) =>
      match zdb tz with
      | some l => goParseInLocation "20060102T150405" value l
      | none => .error .badZone
    | _ => goParseInLocation "20060102T150405" value localLoc

/-- src/unnamed/part_000 `parseICalTime` (lines 208–227): identical to the
main.go version except that it never introduces the dead `format` binding. -/
def parseICalTime2 (zdb : ZoneDB) (localLoc : Location) (value : String)
    (p : IANAProperty) : Except PErr Time :=
  if hasSuffixZ value then
    goTimeParse "20060102T150405Z" value
  else
    match p.params "TZID" with
    | some (tz :: _) =>
      match zdb tz with
      | some l => goParseInLocation "20060102T150405" value l
      | none => .error .badZone
    | _ => goParseInLocation "20060102T150405" value localLoc

/-- The all-day test from src/main.go lines 142–143: the start property's
`VALUE` parameter list is non-empty and its first element is `"DATE"`. -/
def propIsAllDay (p : IANAProperty) : Bool :=
  match p.params "VALUE" with
  | some (v :: _) => v == "DATE"
  | _ => false

/-- The secondary zone adjustment applied to start (src/main.go lines
178–185) and end (lines 187–196): when the property has a non-empty `TZID`
whose first name resolves, reattach that zone with `In`; a `LoadLocation`
error is ignored. -/
def adjustTZ (zdb : ZoneDB) (p : IANAProperty) (t : Time) : Time :=
  match p.params "TZID" with
  | some (tz :: _) =>
    match zdb tz with
    | some l => t.In l
    | none => t
  | _ => t

/-- src/main.go `parseEvent` lines 141–175: the start/end/allDay computation
before the secondary zone adjustment.  All-day events parse both dates with
layout `20060102` and default a missing end to `start.Add(24h)`; timed
events use `parseICalTime` and default a missing end to `start`. -/
def rawEventTimes (zdb : ZoneDB) (localLoc : Location) (startProp : IANAProperty)
    (dtend : Option IANAProperty) : Except PErr (Time × Time × Bool) :=
  if propIsAllDay startProp then
    match goTimeParse "20060102" startProp.value with
    | .error e => .error e
    | .ok start =>
      match dtend with
      | some endProp =>
        match goTimeParse "20060102" endProp.value with
        | .error e => .error e
        | .ok stop => .ok (start, stop, true)
      | none => .ok (start, start.Add 86400, true)
  else
    match parseICalTime zdb localLoc startProp.value startProp with
    | .error e => .error e
    | .ok start =>
      match dtend with
      | some endProp =>
        match parseICalTime zdb localLoc endProp.value endProp with
        | .error e => .error e
        | .ok stop => .ok (start, stop, false)
      | none => .ok (start, start, false)

/-- src/main.go `parseEvent` lines 122–196: the start/end/allDay computation
before the window check: `rawEventTimes`, then the secondary TZID adjustment,
applied to start unconditionally and to end only when the end property is
present. -/
def eventTimes (zdb : ZoneDB) (localLoc : Location) (v : VEvent) :
    Except PErr (Time × Time × Bool) :=
  match v.dtstart with
  | none => .error .missingDtStart
  | some startProp =>
    match rawEventTimes zdb localLoc startProp v.dtend with
    | .error e => .error e
    | .ok (start, stop, allDay) =>
      let start := adjustTZ zdb startProp start
      let stop :=
        match v.dtend with
        | some endProp => adjustTZ zdb endProp stop
        | none => stop
      .ok (start, stop, allDay)

/-- The Go `Event` struct serialised in the JSON response. -/
structure Event where
  UID : String
  Summary : String
  Description : String
  Location : String
  Start : Time
  End : Time
  AllDay : Bool
deriving DecidableEq

/-- Outcome of Go `parseEvent`: `ok (some e)` is `(&e, nil)`, `ok none` is
`(nil, nil)` (event parsed but outside the window), `err` is `(nil, err)`,
and `panicked` is the nil-pointer dereference that happens when the event
overlaps the window but one of the four optional properties is absent. -/
inductive ParseResult where
  | ok (e : Option Event)
  | err (e : PErr)
  | panicked
deriving DecidableEq

/-- src/main.go `parseEvent` lines 122–212: compute the times via
`eventTimes`, test `end.After(targetStart) && start.Before(targetEnd)`, and
on overlap build the `Event` by dereferencing the uid/summary/description/
location property pointers (a nil one panics). -/
def parseEvent (zdb : ZoneDB) (localLoc : Location) (v : VEvent)
    (targetStart targetEnd : Time) : ParseResult :=
  match eventTimes zdb localLoc v with
  | .error e => .err e
  | .ok (start, stop, allDay) =>
    if stop.After targetStart && start.Before targetEnd then
      match v.uid, v.summary, v.description, v.location with
      | some u, some s, some d, some l =>
        .ok (some ⟨u.value, s.value, d.value, l.value, start, stop, allDay⟩)
      | _, _, _, _ => .panicked
    else .ok none

/-- src/unnamed/part_000 `parseEvent` lines 134–168: textually the same
pre-adjustment computation, calling that file's `parseICalTime`. -/
def rawEventTimes2 (zdb : ZoneDB) (localLoc : Location) (startProp : IANAProperty)
    (dtend : Option IANAProperty) : Except PErr (Time × Time × Bool) :=
  if propIsAllDay startProp then
    match goTimeParse "20060102" startProp.value with
    | .error e => .error e
    | .ok start =>
      match dtend with
      | some endProp =>
        match goTimeParse "20060102" endProp.value with
        | .error e => .error e
        | .ok stop => .ok (start, stop, true)
      | none => .ok (start, start.Add 86400, true)
  else
    match parseICalTime2 zdb localLoc startProp.value startProp with
    | .error e => .error e
    | .ok start =>
      match dtend with
      | some endProp =>
        match parseICalTime2 zdb localLoc endProp.value endProp with
        | .error e => .error e
        | .ok stop => .ok (start, stop, false)
      | none => .ok (start, start, false)

/-- src/unnamed/part_000 `parseEvent` lines 114–189: textually the same
computation as main.go's, calling that file's `parseICalTime`. -/
def eventTimes2 (zdb : ZoneDB) (localLoc : Location) (v : VEvent) :
    Except PErr (Time × Time × Bool) :=
  match v.dtstart with
  | none => .error .missingDtStart
  | some startProp =>
    match rawEventTimes2 zdb localLoc startProp v.dtend with
    | .error e => .error e
    | .ok (start, stop, allDay) =>
      let start := adjustTZ zdb startProp start
      let stop :=
        match v.dtend with
        | some endProp => adjustTZ zdb endProp stop
        | none => stop
      .ok (start, stop, allDay)

/-- src/unnamed/part_000 `parseEvent` lines 191–204: the window check and
event construction, identical to main.go's. -/
def parseEvent2 (zdb : ZoneDB) (localLoc : Location) (v : VEvent)
    (targetStart targetEnd : Time) : ParseResult :=
  match eventTimes2 zdb localLoc v with
  | .error e => .err e
  | .ok (start, stop, allDay) =>
    if stop.After targetStart && start.Before targetEnd then
      match v.uid, v.summary, v.description, v.location with
      | some u, some s, some d, some l =>
        .ok (some ⟨u.value, s.value, d.value, l.value, start, stop, allDay⟩)
      | _, _, _, _ => .panicked
    else .ok none

/-- A parsed calendar component, as produced by `ics.ParseCalendar`: the
handler's type switch keeps only `*ics.VEvent` components. -/
inductive Component where
  | vevent (v : VEvent)
  | other

/-- The handler's collection loop (src/main.go lines 94–104): for each
`VEvent`, an extraction error skips the component, a nil event is dropped,
a parsed event is appended in order; a panic aborts the whole request
(`error ()`). -/
def collectEvents (zdb : ZoneDB) (localLoc : Location)
    (targetStart targetEnd : Time) : List Component → Except Unit (List Event)
  | [] => .ok []
  | .other :: rest => collectEvents zdb localLoc targetStart targetEnd rest
  | .vevent v :: rest =>
    match parseEvent zdb localLoc v targetStart targetEnd with
    | .panicked => .error ()
    | .err _ => collectEvents zdb localLoc targetStart targetEnd rest
    | .ok none => collectEvents zdb localLoc targetStart targetEnd rest
    | .ok (some e) =>
      (collectEvents zdb localLoc targetStart targetEnd rest).map (e :: ·)

/-- The order `sort.Slice` establishes with the comparator
`events[i].Start.Before(events[j].Start)` (src/main.go lines 107–109):
adjacent elements satisfy the negation of the strict comparator, i.e. the
starts are non-decreasing. -/
def startLe (a b : Event) : Prop := a.Start.instant ≤ b.Start.instant

instance : DecidableRel startLe := fun a b => Int.decLe _ _

instance : IsTotal Event startLe := ⟨fun a b => Int.le_total _ _⟩

instance : IsTrans Event startLe := ⟨fun _ _ _ => Int.le_trans⟩

/-- The handler's `sort.Slice(events, less)` call, modelled by its contract:
the output is a permutation of the input sorted so that no adjacent pair
violates the comparator.  Insertion sort realises exactly that contract. -/
def sortEvents (l : List Event) : List Event := List.insertionSort startLe l

/-- The handler's target window (src/main.go lines 89–90): local midnight of
the target civil date, as an instant, tagged with the local zone. -/
def localMidnight (l : Location) (y : Int) (m d : Nat) : Time :=
  ⟨daysFromCivil y m d * 86400 - l.offset, l⟩

/-- The extraction pipeline with the secondary zone adjustment (src/main.go
lines 177–196) removed: start/end come straight from `rawEventTimes`.  Used
to state that the adjustment step is a pure frame effect. -/
def eventTimesNoAdjust (zdb : ZoneDB) (localLoc : Location) (v : VEvent) :
    Except PErr (Time × Time × Bool) :=
  match v.dtstart with
  | none => .error .missingDtStart
  | some startProp => rawEventTimes zdb localLoc startProp v.dtend

/-- `parseEvent` with the secondary zone adjustment removed. -/
def parseEventNoAdjust (zdb : ZoneDB) (localLoc : Location) (v : VEvent)
    (targetStart targetEnd : Time) : ParseResult :=
  match eventTimesNoAdjust zdb localLoc v with
  | .error e => .err e
  | .ok (start, stop, allDay) =>
    if stop.After targetStart && start.Before targetEnd then
      match v.uid, v.summary, v.description, v.location with
      | some u, some s, some d, some l =>
        .ok (some ⟨u.value, s.value, d.value, l.value, start, stop, allDay⟩)
      | _, _, _, _ => .panicked
    else .ok none

/-- Two events that agree on everything except the zone tags attached to
their start/end times. -/
def sameModuloZone (e e' : Event) : Prop :=
  e.UID = e'.UID ∧ e.Summary = e'.Summary ∧ e.Description = e'.Description ∧
  e.Location = e'.Location ∧ e.Start.instant = e'.Start.instant ∧
  e.End.instant = e'.End.instant ∧ e.AllDay = e'.AllDay

/-- Two `parseEvent` outcomes that agree up to the zone tags of the returned
event's times: same in/out-of-window decision, same errors, same panic. -/
def resultSameModuloZone : ParseResult → ParseResult → Prop
  | .ok none, .ok none => True
  | .ok (some e), .ok (some e') => sameModuloZone e e'
  | .err a, .err b => a = b
  | .panicked, .panicked => True
  | _, _ => False

/-- A zone database that resolves no name. -/
def zdbNone : ZoneDB := fun _ => none

/-- A zone database that resolves only `America/New_York` (standard-time
offset −5h in this fixed-offset model). -/
def zdbNY : ZoneDB :=
  fun s => if s = "America/New_York" then some ⟨"America/New_York", -18000⟩ else none

/-- A property carrying only a raw value, with an empty parameter map. -/
def strProp (v : String) : IANAProperty := ⟨v, fun _ => none⟩

/-- A property carrying a raw value and a single parameter entry. -/
def paramProp (v k : String) (vals : List String) : IANAProperty :=
  ⟨v, fun q => if q = k then some vals else none⟩

/-- A `VALUE=DATE` (all-day) start property. -/
def dateProp (v : String) : IANAProperty := paramProp v "VALUE" ["DATE"]

/-- The all-day component of the spec's test: `DTSTART;VALUE=DATE:20240301`,
no `DTEND`, all optional properties present (empty). -/
def allDayMar1 : VEvent :=
  ⟨some (dateProp "20240301"), none, some (strProp ""), some (strProp ""),
   some (strProp ""), some (strProp "")⟩

/-- A fixed-offset stand-in for a viewer east of UTC (UTC+1). -/
def paris : Location := ⟨"Europe/Paris", 3600⟩

/-- The claim-C2 component: a timed start value without the `Z` suffix
carrying `TZID=Bogus/Zone`, which no zone database entry resolves. -/
def vC2 : VEvent :=
  ⟨some (paramProp "20240615T090000" "TZID" ["Bogus/Zone"]), none,
   some (strProp ""), some (strProp ""), some (strProp ""), some (strProp "")⟩

/-- The claim-C3 component: a timed event with only `DTSTART`, all four
optional properties absent. -/
def vC3 : VEvent := ⟨some (strProp "20240615T140000Z"), none, none, none, none, none⟩

/-- The claim-C1 component: start and end parse fine and overlap the June 15
window, but summary/description/location are absent. -/
def vC1 : VEvent :=
  ⟨some (strProp "20240615T140000Z"), some (strProp "20240615T150000Z"),
   none, none, none, some (strProp "u1")⟩

/-- A fully-populated timed component overlapping the June 15 window. -/
def vGood : VEvent :=
  ⟨some (strProp "20240615T140000Z"), some (strProp "20240615T150000Z"),
   some (strProp "Mtg"), some (strProp "Desc"), some (strProp "Room"),
   some (strProp "uid-1")⟩

/-- A timed component with only a start property. -/
def vTimedOnlyStart : VEvent :=
  ⟨some (strProp "20240615T140000Z"), none, some (strProp ""), some (strProp ""),
   some (strProp ""), some (strProp "")⟩

/-- A component with no `DTSTART` at all. -/
def vNoStart : VEvent :=
  ⟨none, none, some (strProp "x"), some (strProp ""), some (strProp ""),
   some (strProp "bad")⟩

/-- A well-formed timed component at 08:00Z on June 15, 2024. -/
def vG1 : VEvent :=
  ⟨some (strProp "20240615T080000Z"), some (strProp "20240615T083000Z"),
   some (strProp "one"), some (strProp ""), some (strProp ""), some (strProp "g1")⟩

/-- A well-formed timed component at 09:00Z on June 15, 2024. -/
def vG2 : VEvent :=
  ⟨some (strProp "20240615T090000Z"), some (strProp "20240615T093000Z"),
   some (strProp "two"), some (strProp ""), some (strProp ""), some (strProp "g2")⟩

/-- An event starting 08:00Z June 15, 2024. -/
def ev8 : Event := ⟨"a", "", "", "", ⟨1718438400, utc⟩, ⟨1718440200, utc⟩, false⟩

/-- An event starting 09:00Z June 15, 2024. -/
def ev9 : Event := ⟨"b", "", "", "", ⟨1718442000, utc⟩, ⟨1718443800, utc⟩, false⟩

/-- An event starting 10:00Z June 15, 2024. -/
def ev10 : Event := ⟨"c", "", "", "", ⟨1718445600, utc⟩, ⟨1718447400, utc⟩, false⟩

/-- The adjustment never changes the instant, only the attached zone. -/
theorem adjustTZ_instant (zdb : ZoneDB) (p : IANAProperty) (t : Time) :
    (adjustTZ zdb p t).instant = t.instant := by
  unfold adjustTZ
  split
  · split
    · rfl
    · rfl
  · rfl

/-- C10: the two source variants implement the same core.  `parseICalTime`,
the raw time computation, `eventTimes` and `parseEvent` of src/main.go are
(definitionally) equal to their src/unnamed/part_000 counterparts; in
particular main.go's initial assignment `format := "20060102T150405Z0700"`,
the only textual difference inside `parseICalTime`, is dead: the variant
without it computes the same function. -/
theorem c10_variants_identical :
    parseICalTime = parseICalTime2 ∧ rawEventTimes = rawEventTimes2 ∧
    eventTimes = eventTimes2 ∧ parseEvent = parseEvent2 :=
  ⟨rfl, rfl, rfl, rfl⟩

/-- C4: `parseICalTime`'s case analysis.  A value ending in `Z` is parsed as
UTC with layout `20060102T150405Z` (so `20240615T140000Z` is exactly
2024-06-15 14:00:00 UTC, instant 1718460000); otherwise a present, non-empty
`TZID` whose first name resolves makes the naive value parse as wall clock
in that zone, and an absent or empty `TZID` parameter list makes it parse as
wall clock in the process-local zone; `goParseInLocation` subtracts the
zone's offset from the wall-clock reading. -/
theorem c4_parseICalTime_cases :
    (∀ (zdb : ZoneDB) (lz : Location) (value : String) (p : IANAProperty),
      hasSuffixZ value = true →
      parseICalTime zdb lz value p = goTimeParse "20060102T150405Z" value) ∧
    (∀ (zdb : ZoneDB) (lz : Location) (p : IANAProperty),
      parseICalTime zdb lz "20240615T140000Z" p = .ok ⟨1718460000, utc⟩) ∧
    (∀ (zdb : ZoneDB) (lz : Location) (value : String) (p : IANAProperty)
        (tz : String) (rest : List String) (l : Location),
      hasSuffixZ value = false → p.params "TZID" = some (tz :: rest) →
      zdb tz = some l →
      parseICalTime zdb lz value p = goParseInLocation "20060102T150405" value l) ∧
    (∀ (zdb : ZoneDB) (lz : Location) (value : String) (p : IANAProperty),
      hasSuffixZ value = false →
      (p.params "TZID" = none ∨ p.params "TZID" = some []) →
      parseICalTime zdb lz value p = goParseInLocation "20060102T150405" value lz) ∧
    (∀ (value : String) (l : Location) (w : Int),
      parseDateTimeChars value.data = .ok w →
      goParseInLocation "20060102T150405" value l = .ok ⟨w - l.offset, l⟩) := by
  refine ⟨?_, ?_, ?_, ?_, ?_⟩
  · intro zdb lz value p h
    simp [parseICalTime, h]
  · intro zdb lz p
    rfl
  · intro zdb lz value p tz rest l hz hp hdb
    simp [parseICalTime, hz, hp, hdb]
  · intro zdb lz value p hz hp
    rcases hp with hp | hp <;> simp [parseICalTime, hz, hp]
  · intro value l w h
    simp [goParseInLocation, h, Except.map]

/-- Witness for C4 at concrete inputs: the UTC value `20240615T140000Z`
with any parameters; a resolvable `TZID=America/New_York` on the naive value
`20240615T090000` (09:00 wall clock at offset −5h is 14:00 UTC); an absent
`TZID`; and the wall-clock conversion itself. -/
theorem c4_parseICalTime_cases_witness :
    (hasSuffixZ "20240615T140000Z" = true ∧
      parseICalTime zdbNone utc "20240615T140000Z" (strProp "20240615T140000Z") =
        goTimeParse "20060102T150405Z" "20240615T140000Z") ∧
    parseICalTime zdbNone utc "20240615T140000Z" (strProp "x") = .ok ⟨1718460000, utc⟩ ∧
    (hasSuffixZ "20240615T090000" = false ∧
      (paramProp "20240615T090000" "TZID" ["America/New_York"]).params "TZID" =
        some ["America/New_York"] ∧
      zdbNY "America/New_York" = some ⟨"America/New_York", -18000⟩ ∧
      parseICalTime zdbNY utc "20240615T090000"
          (paramProp "20240615T090000" "TZID" ["America/New_York"]) =
        goParseInLocation "20060102T150405" "20240615T090000"
          ⟨"America/New_York", -18000⟩) ∧
    (hasSuffixZ "20240615T090000" = false ∧
      parseICalTime zdbNY utc "20240615T090000" (strProp "20240615T090000") =
        goParseInLocation "20060102T150405" "20240615T090000" utc) ∧
    (parseDateTimeChars "20240615T090000".data = .ok 1718442000 ∧
      goParseInLocation "20060102T150405" "20240615T090000"
          ⟨"America/New_York", -18000⟩ = .ok ⟨1718460000, ⟨"America/New_York", -18000⟩⟩) :=
  ⟨⟨rfl, c4_parseICalTime_cases.1 zdbNone utc "20240615T140000Z"
      (strProp "20240615T140000Z") rfl⟩,
   c4_parseICalTime_cases.2.1 zdbNone utc (strProp "x"),
   ⟨rfl, rfl, rfl,
    c4_parseICalTime_cases.2.2.1 zdbNY utc "20240615T090000"
      (paramProp "20240615T090000" "TZID" ["America/New_York"])
      "America/New_York" [] ⟨"America/New_York", -18000⟩ rfl rfl rfl⟩,
   ⟨rfl, c4_parseICalTime_cases.2.2.2.1 zdbNY utc "20240615T090000"
      (strProp "20240615T090000") rfl (Or.inl rfl)⟩,
   ⟨rfl, c4_parseICalTime_cases.2.2.2.2 "20240615T090000"
      ⟨"America/New_York", -18000⟩ 1718442000 rfl⟩⟩

/-- C2 is false as stated: a timed value lacking the `Z` suffix whose `TZID`
names an unresolvable zone makes `parseEvent` fail (the `time.LoadLocation`
error is returned from `parseICalTime`, not ignored), and the batch loop
skips the component, yielding no event for it. -/
theorem c2_counterexample :
    hasSuffixZ "20240615T090000" = false ∧
    (paramProp "20240615T090000" "TZID" ["Bogus/Zone"]).params "TZID" =
      some ["Bogus/Zone"] ∧
    zdbNone "Bogus/Zone" = none ∧
    parseEvent zdbNone utc vC2 (localMidnight utc 2024 6 15)
      ((localMidnight utc 2024 6 15).Add 86400) = .err .badZone ∧
    collectEvents zdbNone utc (localMidnight utc 2024 6 15)
      ((localMidnight utc 2024 6 15).Add 86400) [.vevent vC2] = .ok [] :=
  ⟨rfl, rfl, rfl, rfl, rfl⟩

/-- C2 amended: an unresolvable `TZID` on a value that still needs it (no
`Z` suffix) is a returned error, so the component is skipped; the silent
fallback the spec describes happens only in the secondary zone adjustment,
i.e. once an instant was already parsed — a `Z`-suffixed start with an
unresolvable `TZID` extracts fine, using the instant parsed from the `Z`
value (with the missing end defaulting to it). -/
theorem c2_unresolvable_tzid :
    (∀ (zdb : ZoneDB) (lz : Location) (value : String) (p : IANAProperty)
        (tz : String) (rest : List String),
      hasSuffixZ value = false → p.params "TZID" = some (tz :: rest) →
      zdb tz = none → parseICalTime zdb lz value p = .error .badZone) ∧
    (∀ (zdb : ZoneDB) (lz : Location) (v : VEvent) (sp : IANAProperty)
        (tz : String) (rest : List String) (S : Time),
      v.dtstart = some sp → propIsAllDay sp = false → hasSuffixZ sp.value = true →
      sp.params "TZID" = some (tz :: rest) → zdb tz = none → v.dtend = none →
      goTimeParse "20060102T150405Z" sp.value = .ok S →
      eventTimes zdb lz v = .ok (S, S, false)) := by
  constructor
  · intro zdb lz value p tz rest hz hp hdb
    simp [parseICalTime, hz, hp, hdb]
  · intro zdb lz v sp tz rest S hds had hz hp hdb hde hparse
    have hpt : parseICalTime zdb lz sp.value sp = .ok S := by
      simp [parseICalTime, hz, hparse]
    have hraw : rawEventTimes zdb lz sp none = .ok (S, S, false) := by
      simp [rawEventTimes, had, hpt]
    have hadj : adjustTZ zdb sp S = S := by
      simp [adjustTZ, hp, hdb]
    simp [eventTimes, hds, hraw, hde, hadj]

/-- Witness for C2's amended statement: `Bogus/Zone` with the naive value
fails, while the same unresolvable zone on `20240615T140000Z` is ignored
and the UTC instant is used for both start and defaulted end. -/
theorem c2_unresolvable_tzid_witness :
    (hasSuffixZ "20240615T090000" = false ∧
      parseICalTime zdbNone utc "20240615T090000"
        (paramProp "20240615T090000" "TZID" ["Bogus/Zone"]) = .error .badZone) ∧
    (hasSuffixZ "20240615T140000Z" = true ∧
      eventTimes zdbNone utc
        ⟨some (paramProp "20240615T140000Z" "TZID" ["Bogus/Zone"]), none,
         some (strProp ""), some (strProp ""), some (strProp ""), some (strProp "")⟩ =
        .ok (⟨1718460000, utc⟩, ⟨1718460000, utc⟩, false)) :=
  ⟨⟨rfl, c2_unresolvable_tzid.1 zdbNone utc "20240615T090000"
      (paramProp "20240615T090000" "TZID" ["Bogus/Zone"]) "Bogus/Zone" [] rfl rfl rfl⟩,
   ⟨rfl, c2_unresolvable_tzid.2 zdbNone utc
      ⟨some (paramProp "20240615T140000Z" "TZID" ["Bogus/Zone"]), none,
       some (strProp ""), some (strProp ""), some (strProp ""), some (strProp "")⟩
      (paramProp "20240615T140000Z" "TZID" ["Bogus/Zone"]) "Bogus/Zone" []
      ⟨1718460000, utc⟩ rfl rfl rfl rfl rfl rfl rfl⟩⟩

/-- C3: the code faults rather than defaulting.  With a start that parses
and overlaps the target window but all optional properties absent, the Go
event construction dereferences nil property pointers, modelled as
`panicked`, and the batch aborts instead of producing an empty-string
event. -/
theorem c3_missing_optional_fields_panic :
    eventTimes zdbNone utc vC3 = .ok (⟨1718460000, utc⟩, ⟨1718460000, utc⟩, false) ∧
    parseEvent zdbNone utc vC3 (localMidnight utc 2024 6 15)
      ((localMidnight utc 2024 6 15).Add 86400) = .panicked ∧
    collectEvents zdbNone utc (localMidnight utc 2024 6 15)
      ((localMidnight utc 2024 6 15).Add 86400) [.vevent vC3] = .error () :=
  ⟨rfl, rfl, rfl⟩

/-- C1 is false as stated: here start and end parse to instants S, E with
`E > W0` and `S < W1`, yet `parseEvent` does not return an Event — it hits
the nil-pointer dereference on the absent optional properties. -/
theorem c1_counterexample :
    eventTimes zdbNone utc vC1 = .ok (⟨1718460000, utc⟩, ⟨1718463600, utc⟩, false) ∧
    Time.After ⟨1718463600, utc⟩ (localMidnight utc 2024 6 15) = true ∧
    Time.Before ⟨1718460000, utc⟩ ((localMidnight utc 2024 6 15).Add 86400) = true ∧
    parseEvent zdbNone utc vC1 (localMidnight utc 2024 6 15)
      ((localMidnight utc 2024 6 15).Add 86400) = .panicked :=
  ⟨rfl, rfl, rfl, rfl⟩

/-- C1 amended: for every component whose start and end parse (to instants
S, E after the inert zone adjustment) and whose four optional properties
are present, `parseEvent` returns an Event iff `E > W0 ∧ S < W1` — the
half-open overlap test, which in particular excludes an event ending
exactly at W0, excludes one starting exactly at W1, and includes one
starting exactly at W0 with E > W0. -/
theorem c1_overlap_iff (zdb : ZoneDB) (lz : Location) (v : VEvent)
    (S E : Time) (ad : Bool) (tS tE : Time)
    (h : eventTimes zdb lz v = .ok (S, E, ad))
    (hu : v.uid.isSome = true) (hsm : v.summary.isSome = true)
    (hde : v.description.isSome = true) (hlo : v.location.isSome = true) :
    (∃ e, parseEvent zdb lz v tS tE = .ok (some e)) ↔
      (tS.instant < E.instant ∧ S.instant < tE.instant) := by
  obtain ⟨u, hu'⟩ := Option.isSome_iff_exists.mp hu
  obtain ⟨s, hsm'⟩ := Option.isSome_iff_exists.mp hsm
  obtain ⟨d, hde'⟩ := Option.isSome_iff_exists.mp hde
  obtain ⟨l, hlo'⟩ := Option.isSome_iff_exists.mp hlo
  have hcond : (E.After tS && S.Before tE) = true ↔
      (tS.instant < E.instant ∧ S.instant < tE.instant) := by
    simp [Time.After, Time.Before]
  unfold parseEvent
  rw [h]
  dsimp only
  rcases Classical.em (tS.instant < E.instant ∧ S.instant < tE.instant) with hov | hov
  · rw [if_pos (hcond.mpr hov)]
    rw [hu', hsm', hde', hlo']
    exact ⟨fun _ => hov, fun _ => ⟨_, rfl⟩⟩
  · rw [if_neg (fun hc => hov (hcond.mp hc))]
    constructor
    · rintro ⟨e, he⟩
      exact absurd he (by simp)
    · intro hc
      exact absurd hc hov

/-- Witness for C1's amended statement at the concrete component `vGood`
and the June 15 UTC day window. -/
theorem c1_overlap_iff_witness :
    (eventTimes zdbNone utc vGood =
      .ok (⟨1718460000, utc⟩, ⟨1718463600, utc⟩, false) ∧
     vGood.uid.isSome = true ∧ vGood.summary.isSome = true ∧
     vGood.description.isSome = true ∧ vGood.location.isSome = true) ∧
    ((∃ e, parseEvent zdbNone utc vGood (localMidnight utc 2024 6 15)
        ((localMidnight utc 2024 6 15).Add 86400) = .ok (some e)) ↔
      ((localMidnight utc 2024 6 15).instant < (⟨1718463600, utc⟩ : Time).instant ∧
        (⟨1718460000, utc⟩ : Time).instant <
          ((localMidnight utc 2024 6 15).Add 86400).instant)) :=
  ⟨⟨rfl, rfl, rfl, rfl, rfl⟩,
   c1_overlap_iff zdbNone utc vGood ⟨1718460000, utc⟩ ⟨1718463600, utc⟩ false
     (localMidnight utc 2024 6 15) ((localMidnight utc 2024 6 15).Add 86400)
     rfl rfl rfl rfl rfl⟩

/-- C5: a component with a start property and no end property never fails
on account of the missing end, and the default depends on event kind: when
the start parses, an all-day event gets end = start + 1 day and a timed
event gets end = start (zero duration), stated on instants since the
adjustment step may only retag the start's zone. -/
theorem c5_missing_end_defaults (zdb : ZoneDB) (lz : Location) (v : VEvent)
    (sp : IANAProperty) (hs : v.dtstart = some sp) (he : v.dtend = none) :
    (∀ S : Time, propIsAllDay sp = true → goTimeParse "20060102" sp.value = .ok S →
      ∃ S' : Time, eventTimes zdb lz v = .ok (S', S.Add 86400, true) ∧
        S'.instant = S.instant) ∧
    (∀ S : Time, propIsAllDay sp = false → parseICalTime zdb lz sp.value sp = .ok S →
      ∃ S' : Time, eventTimes zdb lz v = .ok (S', S, false) ∧
        S'.instant = S.instant) := by
  constructor
  · intro S had hparse
    have hraw : rawEventTimes zdb lz sp none = .ok (S, S.Add 86400, true) := by
      simp [rawEventTimes, had, hparse]
    refine ⟨adjustTZ zdb sp S, ?_, adjustTZ_instant zdb sp S⟩
    simp [eventTimes, hs, he, hraw]
  · intro S had hparse
    have hraw : rawEventTimes zdb lz sp none = .ok (S, S, false) := by
      simp [rawEventTimes, had, hparse]
    refine ⟨adjustTZ zdb sp S, ?_, adjustTZ_instant zdb sp S⟩
    simp [eventTimes, hs, he, hraw]

/-- Witness for C5 at concrete components: the all-day `20240301` start
defaults its end to one day later, and the timed `20240615T140000Z` start
defaults its end to itself. -/
theorem c5_missing_end_defaults_witness :
    (allDayMar1.dtstart = some (dateProp "20240301") ∧ allDayMar1.dtend = none ∧
      propIsAllDay (dateProp "20240301") = true ∧
      goTimeParse "20060102" "20240301" = .ok ⟨1709251200, utc⟩ ∧
      ∃ S' : Time, eventTimes zdbNone utc allDayMar1 =
        .ok (S', Time.Add ⟨1709251200, utc⟩ 86400, true) ∧
        S'.instant = (⟨1709251200, utc⟩ : Time).instant) ∧
    (vTimedOnlyStart.dtstart = some (strProp "20240615T140000Z") ∧
      vTimedOnlyStart.dtend = none ∧
      propIsAllDay (strProp "20240615T140000Z") = false ∧
      parseICalTime zdbNone utc "20240615T140000Z" (strProp "20240615T140000Z") =
        .ok ⟨1718460000, utc⟩ ∧
      ∃ S' : Time, eventTimes zdbNone utc vTimedOnlyStart =
        .ok (S', ⟨1718460000, utc⟩, false) ∧
        S'.instant = (⟨1718460000, utc⟩ : Time).instant) :=
  ⟨⟨rfl, rfl, rfl, rfl,
    (c5_missing_end_defaults zdbNone utc allDayMar1 (dateProp "20240301") rfl rfl).1
      ⟨1709251200, utc⟩ rfl rfl⟩,
   ⟨rfl, rfl, rfl, rfl,
    (c5_missing_end_defaults zdbNone utc vTimedOnlyStart
        (strProp "20240615T140000Z") rfl rfl).2
      ⟨1718460000, utc⟩ rfl rfl⟩⟩

/-- C6 is false as stated: for a viewer east of UTC (here fixed offset +1h),
the all-day event `DTSTART;VALUE=DATE:20240301` with no `DTEND` is still
included when the target window is the local calendar day March 2, 2024,
because its exclusive end (midnight March 2, parsed as UTC) lies after
local midnight March 2. -/
theorem c6_counterexample :
    paris.offset = 3600 ∧
    parseEvent zdbNone paris allDayMar1 (localMidnight paris 2024 3 2)
      ((localMidnight paris 2024 3 2).Add 86400) =
      .ok (some ⟨"", "", "", "", ⟨1709251200, utc⟩, ⟨1709337600, utc⟩, true⟩) :=
  ⟨rfl, rfl⟩

/-- C6 amended: the all-day event `DTSTART;VALUE=DATE:20240301` with no
`DTEND` has exclusive end 2024-03-02 00:00 UTC.  For a viewer zone of fixed
UTC offset `off` seconds (|off| < 24h): the event always matches the local
March 1 window, but it is excluded from the local March 2 window exactly
when `off ≤ 0` (UTC or west of it); viewers east of UTC still see it on
March 2. -/
theorem c6_allday_exclusive (off : Int) (h1 : -86400 < off) (h2 : off < 86400) :
    eventTimes zdbNone ⟨"Local", off⟩ allDayMar1 =
      .ok (⟨1709251200, utc⟩, ⟨1709337600, utc⟩, true) ∧
    parseEvent zdbNone ⟨"Local", off⟩ allDayMar1
      (localMidnight ⟨"Local", off⟩ 2024 3 1)
      ((localMidnight ⟨"Local", off⟩ 2024 3 1).Add 86400) =
      .ok (some ⟨"", "", "", "", ⟨1709251200, utc⟩, ⟨1709337600, utc⟩, true⟩) ∧
    (parseEvent zdbNone ⟨"Local", off⟩ allDayMar1
      (localMidnight ⟨"Local", off⟩ 2024 3 2)
      ((localMidnight ⟨"Local", off⟩ 2024 3 2).Add 86400) = .ok none ↔ off ≤ 0) := by
  have hd1 : daysFromCivil 2024 3 1 = 19783 := by decide
  have hd2 : daysFromCivil 2024 3 2 = 19784 := by decide
  have ht : eventTimes zdbNone ⟨"Local", off⟩ allDayMar1 =
      .ok (⟨1709251200, utc⟩, ⟨1709337600, utc⟩, true) := rfl
  refine ⟨ht, ?_, ?_⟩
  · have hcond : (Time.After ⟨1709337600, utc⟩ (localMidnight ⟨"Local", off⟩ 2024 3 1) &&
        Time.Before ⟨1709251200, utc⟩
          ((localMidnight ⟨"Local", off⟩ 2024 3 1).Add 86400)) = true := by
      simp only [Time.After, Time.Before, localMidnight, Time.Add, hd1,
        Bool.and_eq_true, decide_eq_true_eq]
      omega
    unfold parseEvent
    rw [ht]
    dsimp only
    rw [if_pos hcond]
    rfl
  · unfold parseEvent
    rw [ht]
    dsimp only
    by_cases hoff : off ≤ 0
    · have hcond : (Time.After ⟨1709337600, utc⟩ (localMidnight ⟨"Local", off⟩ 2024 3 2) &&
          Time.Before ⟨1709251200, utc⟩
            ((localMidnight ⟨"Local", off⟩ 2024 3 2).Add 86400)) = false := by
        simp only [Time.After, Time.Before, localMidnight, Time.Add, hd2,
          Bool.and_eq_false_iff, decide_eq_false_iff_not]
        omega
      rw [if_neg (by simp [hcond])]
      simp [hoff]
    · have hcond : (Time.After ⟨1709337600, utc⟩ (localMidnight ⟨"Local", off⟩ 2024 3 2) &&
          Time.Before ⟨1709251200, utc⟩
            ((localMidnight ⟨"Local", off⟩ 2024 3 2).Add 86400)) = true := by
        simp only [Time.After, Time.Before, localMidnight, Time.Add, hd2,
          Bool.and_eq_true, decide_eq_true_eq]
        omega
      rw [if_pos hcond]
      exact ⟨fun hfalse => absurd hfalse (by decide), fun hle => absurd hle hoff⟩

/-- Witness for C6's amended statement at the New York standard offset
(−5h): the event matches March 1 and is excluded from March 2. -/
theorem c6_allday_exclusive_witness :
    (-86400 < (-18000 : Int) ∧ (-18000 : Int) < 86400) ∧
    (eventTimes zdbNone ⟨"Local", -18000⟩ allDayMar1 =
      .ok (⟨1709251200, utc⟩, ⟨1709337600, utc⟩, true) ∧
    parseEvent zdbNone ⟨"Local", -18000⟩ allDayMar1
      (localMidnight ⟨"Local", -18000⟩ 2024 3 1)
      ((localMidnight ⟨"Local", -18000⟩ 2024 3 1).Add 86400) =
      .ok (some ⟨"", "", "", "", ⟨1709251200, utc⟩, ⟨1709337600, utc⟩, true⟩) ∧
    (parseEvent zdbNone ⟨"Local", -18000⟩ allDayMar1
      (localMidnight ⟨"Local", -18000⟩ 2024 3 2)
      ((localMidnight ⟨"Local", -18000⟩ 2024 3 2).Add 86400) = .ok none ↔
      (-18000 : Int) ≤ 0)) :=
  ⟨⟨by decide, by decide⟩, c6_allday_exclusive (-18000) (by decide) (by decide)⟩

/-- The start/end instants and all-day flag computed with and without the
secondary zone adjustment agree; errors agree too. -/
theorem eventTimes_rel (zdb : ZoneDB) (lz : Location) (v : VEvent) :
    (match eventTimes zdb lz v, eventTimesNoAdjust zdb lz v with
     | .ok (S, E, ad), .ok (S', E', ad') =>
       S.instant = S'.instant ∧ E.instant = E'.instant ∧ ad = ad'
     | .error e, .error e' => e = e'
     | _, _ => False) := by
  cases hs : v.dtstart with
  | none =>
    have e1 : eventTimes zdb lz v = .error .missingDtStart := by
      simp [eventTimes, hs]
    have e2 : eventTimesNoAdjust zdb lz v = .error .missingDtStart := by
      simp [eventTimesNoAdjust, hs]
    rw [e1, e2]
  | some sp =>
    cases hde : v.dtend with
    | none =>
      cases hr : rawEventTimes zdb lz sp none with
      | error e =>
        have e1 : eventTimes zdb lz v = .error e := by
          simp [eventTimes, hs, hde, hr]
        have e2 : eventTimesNoAdjust zdb lz v = .error e := by
          simp [eventTimesNoAdjust, hs, hde, hr]
        rw [e1, e2]
      | ok tri =>
        obtain ⟨S, E, ad⟩ := tri
        have e1 : eventTimes zdb lz v = .ok (adjustTZ zdb sp S, E, ad) := by
          simp [eventTimes, hs, hde, hr]
        have e2 : eventTimesNoAdjust zdb lz v = .ok (S, E, ad) := by
          simp [eventTimesNoAdjust, hs, hde, hr]
        rw [e1, e2]
        exact ⟨adjustTZ_instant zdb sp S, rfl, rfl⟩
    | some ep =>
      cases hr : rawEventTimes zdb lz sp (some ep) with
      | error e =>
        have e1 : eventTimes zdb lz v = .error e := by
          simp [eventTimes, hs, hde, hr]
        have e2 : eventTimesNoAdjust zdb lz v = .error e := by
          simp [eventTimesNoAdjust, hs, hde, hr]
        rw [e1, e2]
      | ok tri =>
        obtain ⟨S, E, ad⟩ := tri
        have e1 : eventTimes zdb lz v =
            .ok (adjustTZ zdb sp S, adjustTZ zdb ep E, ad) := by
          simp [eventTimes, hs, hde, hr]
        have e2 : eventTimesNoAdjust zdb lz v = .ok (S, E, ad) := by
          simp [eventTimesNoAdjust, hs, hde, hr]
        rw [e1, e2]
        exact ⟨adjustTZ_instant zdb sp S, adjustTZ_instant zdb ep E, rfl⟩

/-- C7: the secondary zone adjustment never alters the instant a start or
end denotes, only the attached zone tag; consequently `parseEvent` and the
variant with the adjustment removed reach the same overlap decision, the
same errors and panics, and return events differing at most in the zone
tags of their times — never in their instants or other fields. -/
theorem c7_adjust_frame :
    (∀ (zdb : ZoneDB) (p : IANAProperty) (t : Time),
      (adjustTZ zdb p t).instant = t.instant ∧ ∀ l : Location, (t.In l).instant = t.instant) ∧
    (∀ (zdb : ZoneDB) (lz : Location) (v : VEvent) (tS tE : Time),
      resultSameModuloZone (parseEvent zdb lz v tS tE)
        (parseEventNoAdjust zdb lz v tS tE)) := by
  constructor
  · exact fun zdb p t => ⟨adjustTZ_instant zdb p t, fun _ => rfl⟩
  · intro zdb lz v tS tE
    have hrel := eventTimes_rel zdb lz v
    unfold parseEvent parseEventNoAdjust
    cases ht : eventTimes zdb lz v with
    | error e =>
      cases htn : eventTimesNoAdjust zdb lz v with
      | error e' =>
        rw [ht, htn] at hrel
        exact hrel
      | ok tri =>
        rw [ht, htn] at hrel
        exact absurd hrel (by obtain ⟨S, E, ad⟩ := tri; simp)
    | ok tri =>
      obtain ⟨S, E, ad⟩ := tri
      cases htn : eventTimesNoAdjust zdb lz v with
      | error e' =>
        rw [ht, htn] at hrel
        exact absurd hrel (by simp)
      | ok tri' =>
        obtain ⟨S', E', ad'⟩ := tri'
        rw [ht, htn] at hrel
        obtain ⟨hS, hE, had⟩ := hrel
        dsimp only
        have hA : E.After tS = E'.After tS := by
          simp [Time.After, hE]
        have hB : S.Before tE = S'.Before tE := by
          simp [Time.Before, hS]
        rw [hA, hB]
        by_cases hcond : (E'.After tS && S'.Before tE) = true
        · rw [if_pos hcond, if_pos hcond]
          cases hu : v.uid with
          | none => exact trivial
          | some u =>
            cases hsm : v.summary with
            | none => exact trivial
            | some s =>
              cases hdd : v.description with
              | none => exact trivial
              | some d =>
                cases hll : v.location with
                | none => exact trivial
                | some l => exact ⟨rfl, rfl, rfl, rfl, hS, hE, had⟩
        · rw [if_neg hcond, if_neg hcond]
          exact trivial

/-- C8: a component with no start property fails extraction with the
missing-field error, and the handler's collection loop skips a failing
component and keeps going, so one malformed event alongside two events that
extract on the target day yields exactly those two results, in order. -/
theorem c8_batch_resilience :
    (∀ (zdb : ZoneDB) (lz : Location) (v : VEvent) (tS tE : Time),
      v.dtstart = none → parseEvent zdb lz v tS tE = .err .missingDtStart) ∧
    (∀ (zdb : ZoneDB) (lz : Location) (tS tE : Time) (v1 v2 v3 : VEvent)
        (ε : PErr) (e2 e3 : Event),
      parseEvent zdb lz v1 tS tE = .err ε →
      parseEvent zdb lz v2 tS tE = .ok (some e2) →
      parseEvent zdb lz v3 tS tE = .ok (some e3) →
      collectEvents zdb lz tS tE [.vevent v1, .vevent v2, .vevent v3] =
        .ok [e2, e3]) := by
  constructor
  · intro zdb lz v tS tE h
    unfold parseEvent eventTimes
    rw [h]
  · intro zdb lz tS tE v1 v2 v3 ε e2 e3 h1 h2 h3
    unfold collectEvents
    rw [h1]
    unfold collectEvents
    rw [h2]
    unfold collectEvents
    rw [h3]
    rfl

/-- Witness for C8 at a concrete document: one component missing `DTSTART`
plus two good components on the June 15 window yields exactly two events. -/
theorem c8_batch_resilience_witness :
    parseEvent zdbNone utc vNoStart (localMidnight utc 2024 6 15)
      ((localMidnight utc 2024 6 15).Add 86400) = .err .missingDtStart ∧
    collectEvents zdbNone utc (localMidnight utc 2024 6 15)
      ((localMidnight utc 2024 6 15).Add 86400)
      [.vevent vNoStart, .vevent vG1, .vevent vG2] =
      .ok [⟨"g1", "one", "", "", ⟨1718438400, utc⟩, ⟨1718440200, utc⟩, false⟩,
           ⟨"g2", "two", "", "", ⟨1718442000, utc⟩, ⟨1718443800, utc⟩, false⟩] :=
  ⟨c8_batch_resilience.1 zdbNone utc vNoStart (localMidnight utc 2024 6 15)
     ((localMidnight utc 2024 6 15).Add 86400) rfl,
   c8_batch_resilience.2 zdbNone utc (localMidnight utc 2024 6 15)
     ((localMidnight utc 2024 6 15).Add 86400) vNoStart vG1 vG2 .missingDtStart
     ⟨"g1", "one", "", "", ⟨1718438400, utc⟩, ⟨1718440200, utc⟩, false⟩
     ⟨"g2", "two", "", "", ⟨1718442000, utc⟩, ⟨1718443800, utc⟩, false⟩
     rfl rfl rfl⟩

/-- C9: the handler's output list is a permutation of the collected events
in which every adjacent pair has non-decreasing start instants; in
particular starts [10:00, 08:00, 09:00] come out as [08:00, 09:00, 10:00]. -/
theorem c9_sorted_by_start :
    (∀ l : List Event, (sortEvents l).Perm l ∧ List.Chain' startLe (sortEvents l)) ∧
    sortEvents [ev10, ev8, ev9] = [ev8, ev9, ev10] := by
  refine ⟨fun l => ⟨List.perm_insertionSort startLe l,
    (List.sorted_insertionSort startLe l).chain'⟩, ?_⟩
  rfl

end Caljson
